import Mathlib

/-!
# Verification of the push-to-talk voice interface

Shallow embedding of the client-side recording/playback state machine of
`src/components/VoiceButton.tsx` (canonical pointer-token variant), the
status orchestrator of `src/app/page.tsx`, and the voice API route of
`src/app/api/voice/route.ts`.

Conventions of the embedding:
* Blob byte contents are `List Nat`; a chunk buffered by the recorder is one
  such list.  `new Blob(chunks, {type})` concatenates the chunks in order.
* Wall-clock time is in integer milliseconds.  The source computes
  `elapsed = (Date.now() - startTimeRef.current) / 1000` (seconds, float)
  and compares `elapsed >= maxDuration`; for integer millisecond timestamps
  this is the comparison `elapsedMs ≥ 1000 * maxDuration`, which is what the
  model uses.
* Asynchronous suspensions (`await getUserMedia`, the recorder `onstop`
  event, interval ticks, DOM events) are explicit events applied to the
  state at the moment they resume/fire, matching the single-threaded
  cooperative scheduling of the browser.
* Side effects that leave the component (stopping a stream's tracks,
  invoking `onRecordingComplete`) are recorded in an effect list.
-/

namespace VoiceButton

/-- State of a `MediaRecorder` instance (`"inactive"` / `"recording"`). -/
inductive RecState where
  | inactive
  | recording
deriving DecidableEq, Repr

/-- A `MediaRecorder` created by `startRecording`: its state, the mime type
it was constructed with, and the id of the stream it records. -/
structure Recorder where
  state : RecState
  mimeType : String
  streamId : Nat
deriving DecidableEq, Repr

/-- A finished blob: concatenated bytes plus the `type` tag given to
`new Blob(chunks, { type: mimeType })`. -/
structure Blob where
  bytes : List Nat
  type : String
deriving DecidableEq, Repr

/-- Externally visible effects of the component: stopping all tracks of a
stream (releasing device access) and handing a finished blob to
`onRecordingComplete`. -/
inductive Eff where
  | trackStopped (sid : Nat)
  | artifactEmitted (b : Blob)
deriving DecidableEq, Repr

/-- The mutable state of the `VoiceButton` component: the `useState` values
`isRecording`, `duration` (stored here in milliseconds), `permissionDenied`,
and the refs `mediaRecorderRef`, `chunksRef`, `streamRef`, `timerRef`
(modelled as whether the interval is set), `startTimeRef`, `isPressedRef`,
`pointerIdRef`. -/
structure VBState where
  isRecording : Bool
  durationMs : Nat
  permissionDenied : Bool
  recorder : Option Recorder
  chunks : List (List Nat)
  stream : Option Nat
  timerOn : Bool
  startTime : Nat
  isPressed : Bool
  pointerId : Option Nat
deriving DecidableEq, Repr

/-- Initial component state: nothing recording, no refs set. -/
def initVB : VBState :=
  { isRecording := false
    durationMs := 0
    permissionDenied := false
    recorder := none
    chunks := []
    stream := none
    timerOn := false
    startTime := 0
    isPressed := false
    pointerId := none }

/-- The ordered encoding preference list of `getMimeType`. -/
def mimeTypes : List String :=
  ["audio/webm;codecs=opus", "audio/webm", "audio/mp4", "audio/wav"]

/-- `getMimeType`: first type the platform reports as supported
(`MediaRecorder.isTypeSupported`, abstracted as `sup`), else the
`|| "audio/webm"` fallback. -/
def getMimeType (sup : String → Bool) : String :=
  (mimeTypes.find? sup).getD "audio/webm"

/-- `stopRecording`: stop the recorder if it is in state `"recording"`,
clear the interval timer if set, reset `isRecording` and `duration`.
(The recorder's `onstop` event fires asynchronously afterwards; it is the
separate event `fireOnstop`.) -/
def stopRecording (st : VBState) : VBState :=
  let st :=
    match st.recorder with
    | some r =>
        if r.state = RecState.recording then
          { st with recorder := some { r with state := RecState.inactive } }
        else st
    | none => st
  let st := if st.timerOn then { st with timerOn := false } else st
  { st with isRecording := false, durationMs := 0 }

/-- The resumption of `startRecording` after `await getUserMedia` succeeds,
granting stream `sid` at time `now`.  If the press was released during the
suspension (`!isPressedRef.current`) the granted stream's tracks are stopped
and the function returns, touching nothing else.  Otherwise it stores the
stream, clears the chunk buffer, creates a recorder with the negotiated mime
type, starts it, records the start time, sets `isRecording`, clears
`permissionDenied`, and starts the 100ms interval timer. -/
def onGrant (sup : String → Bool) (sid now : Nat) (st : VBState) :
    VBState × List Eff :=
  if !st.isPressed then
    (st, [Eff.trackStopped sid])
  else
    ({ st with
        stream := some sid
        chunks := []
        recorder := some ⟨RecState.recording, getMimeType sup, sid⟩
        startTime := now
        isRecording := true
        permissionDenied := false
        timerOn := true }, [])

/-- The `catch` branch of `startRecording`: device access failed with an
error of the given name; `NotAllowedError` sets `permissionDenied`. -/
def onDeny (errName : String) (st : VBState) : VBState :=
  if errName = "NotAllowedError" then { st with permissionDenied := true } else st

/-- `handlePressEnd`: no-op unless pressed; otherwise disarm the gesture and,
if the recorder is in state `"recording"`, stop through `stopRecording`. -/
def handlePressEnd (st : VBState) : VBState :=
  if !st.isPressed then st
  else
    let st := { st with isPressed := false, pointerId := none }
    match st.recorder with
    | some r => if r.state = RecState.recording then stopRecording st else st
    | none => st

/-- Document-level `pointerup` listener: calls `handlePressEnd` only when a
pointer token is armed and the event's token matches it. -/
def onPointerUp (pid : Nat) (st : VBState) : VBState :=
  match st.pointerId with
  | some q => if pid = q then handlePressEnd st else st
  | none => st

/-- Document-level `touchend` listener (token-less fallback): calls
`handlePressEnd` whenever a press is armed. -/
def onTouchEnd (st : VBState) : VBState :=
  if st.isPressed then handlePressEnd st else st

/-- Window `blur` listener: unconditionally reset the press refs. -/
def onBlur (st : VBState) : VBState :=
  { st with isPressed := false, pointerId := none }

/-- `handlePointerDown`: returns the new state and whether a `getUserMedia`
request was issued (the synchronous prefix of `startRecording` re-checks
`isDisabled` and otherwise suspends on `getUserMedia`). -/
def handlePointerDown (isDisabled : Bool) (pid : Nat) (st : VBState) :
    VBState × Bool :=
  if isDisabled then (st, false)
  else ({ st with pointerId := some pid, isPressed := true }, true)

/-- One firing of the 100ms interval timer at time `now`: update the
duration display and, when the elapsed time has reached the configured
maximum, force a stop through `stopRecording`.  A cleared timer never
fires. -/
def tick (maxDuration now : Nat) (st : VBState) : VBState :=
  if !st.timerOn then st
  else
    let elapsedMs := now - st.startTime
    let st := { st with durationMs := elapsedMs }
    if 1000 * maxDuration ≤ elapsedMs then stopRecording st else st

/-- The recorder's `ondataavailable` handler: buffer the chunk only if its
size is positive. -/
def onDataAvailable (data : List Nat) (st : VBState) : VBState :=
  if 0 < data.length then { st with chunks := st.chunks ++ [data] } else st

/-- The recorder's `onstop` handler (closure capturing the `mimeType` the
recorder was created with): build one blob from the buffered chunks, clear
the buffer, stop all tracks of the held stream and drop it, and invoke
`onRecordingComplete` only if the blob's size is positive. -/
def fireOnstop (mime : String) (st : VBState) : VBState × List Eff :=
  let blob : Blob := ⟨st.chunks.flatten, mime⟩
  let st := { st with chunks := [] }
  let (st, effs) :=
    match st.stream with
    | some sid => ({ st with stream := none }, [Eff.trackStopped sid])
    | none => (st, ([] : List Eff))
  if 0 < blob.bytes.length then (st, effs ++ [Eff.artifactEmitted blob])
  else (st, effs)

/-- Run the interval ticks `1, 2, …, n` of a session whose timer was started
at time `t0`: tick `i` fires at time `t0 + 100 * i`. -/
def runTicks (maxDuration t0 : Nat) (st : VBState) : Nat → VBState
  | 0 => st
  | n + 1 => tick maxDuration (t0 + 100 * (n + 1)) (runTicks maxDuration t0 st n)

end VoiceButton

namespace Page

/-- The orchestrator status of `page.tsx` (`Status` of `StatusIndicator`). -/
inductive Status where
  | idle
  | recording
  | processing
  | playing
  | error
deriving DecidableEq, Repr

/-- Orchestrator state: the `status` and `errorMessage` `useState` values, a
flag recording whether the 3-second `setTimeout` reset of the
`handleRecordingComplete` catch block is scheduled, and a ghost log of every
value passed to `setStatus` (for stating observed status sequences). -/
structure PageState where
  status : Status
  errorMessage : String
  pendingReset : Bool
  log : List Status
deriving DecidableEq, Repr

/-- `setStatus`: update the status and append it to the ghost log. -/
def setStatus (s : Status) (st : PageState) : PageState :=
  { st with status := s, log := st.log ++ [s] }

/-- Initial orchestrator state (`useState<Status>("idle")`). -/
def initPage : PageState :=
  { status := Status.idle, errorMessage := "", pendingReset := false
    log := [Status.idle] }

/-- JavaScript `o || d` for an optional string: a missing or empty (falsy)
value yields the default. -/
def jsOrStr (o : Option String) (d : String) : String :=
  match o with
  | some s => if s = "" then d else s
  | none => d

/-- Outcome of the boundary call in `handleRecordingComplete`:
the `fetch`/encode chain throws (message present when the thrown value is an
`Error`), the response is non-ok carrying an optional `error` field, or it is
ok JSON with optional `audio` and `audioFormat` fields. -/
inductive FetchOutcome where
  | fetchThrow (msg : Option String)
  | httpErr (errField : Option String)
  | okJson (audio : Option String) (audioFormat : Option String)
deriving DecidableEq, Repr

/-- Whether `await audio.play()` resolves or rejects inside `playAudio`. -/
inductive PlayOutcome where
  | started
  | throwsPlay
deriving DecidableEq, Repr

/-- The catch block of `handleRecordingComplete`: enter Error with the given
message and schedule the 3-second auto-reset to Idle. -/
def errorWithReset (m : String) (st : PageState) : PageState :=
  { setStatus Status.error st with errorMessage := m, pendingReset := true }

/-- `playAudio`: sets status to `playing` first, then decodes and plays; its
own catch (play rejection / decode failure) enters Error with the
tap-to-retry message — without scheduling any reset.  The reply format only
selects the blob mime type and does not affect status. -/
def playAudio (_format : String) (play : PlayOutcome) (st : PageState) :
    PageState :=
  let st := setStatus Status.playing st
  match play with
  | PlayOutcome.started => st
  | PlayOutcome.throwsPlay =>
      { setStatus Status.error st with
          errorMessage := "Could not play audio. Tap to retry." }

/-- `handleRecordingComplete`: enter Processing, clear the message, send the
artifact across the boundary, and dispatch on the outcome.  A non-ok
response throws `errorData.error || "Failed to process voice"`; missing or
empty `data.audio` throws `"No audio response received"`; other throws keep
their own message (`"Something went wrong"` for non-`Error` values).  All
throws are caught by the catch block, which schedules the 3-second reset.
A successful payload is handed to `playAudio`, whose failures are caught
internally and do not reach this catch block. -/
def handleRecordingComplete (out : FetchOutcome) (play : PlayOutcome)
    (st : PageState) : PageState :=
  let st := { setStatus Status.processing st with errorMessage := "" }
  match out with
  | FetchOutcome.fetchThrow m =>
      errorWithReset (m.getD "Something went wrong") st
  | FetchOutcome.httpErr e =>
      errorWithReset (jsOrStr e "Failed to process voice") st
  | FetchOutcome.okJson audio fmt =>
      match audio with
      | some a =>
          if a = "" then errorWithReset "No audio response received" st
          else playAudio (jsOrStr fmt "mp3") play st
      | none => errorWithReset "No audio response received" st

/-- The `audio.onended` handler: release the object URL and return to Idle. -/
def onEnded (st : PageState) : PageState :=
  setStatus Status.idle st

/-- The `audio.onerror` handler: release the object URL and enter Error with
the playback-failure message; no reset is scheduled. -/
def onAudioError (st : PageState) : PageState :=
  { setStatus Status.error st with
      errorMessage := "Failed to play audio response" }

/-- The 3-second `setTimeout` callback firing: status to Idle, message
cleared. -/
def fireReset (st : PageState) : PageState :=
  { setStatus Status.idle st with errorMessage := "", pendingReset := false }

/-- `isDisabled` as computed in `page.tsx` and passed to `VoiceButton`. -/
def isDisabled (st : PageState) : Bool :=
  st.status = Status.processing || st.status = Status.playing

/-- `page.tsx` renders `VoiceButton` with only `onRecordingComplete`,
`isDisabled` and `maxDuration={20}`: the optional `onPressStart` prop is not
passed, so no capture-start notification ever reaches the orchestrator. -/
def homePassesOnPressStart : Bool := false

end Page

namespace VoiceRoute

/-- An OpenAI SDK `APIError`: its message and the optional HTTP status of
the failed upstream call. -/
structure ApiErr where
  message : String
  status : Option Nat
deriving DecidableEq, Repr

/-- Result of one awaited SDK call inside the route's try block: a value, an
`APIError`, or some other thrown value. -/
inductive CallResult (α : Type) where
  | ok (a : α)
  | api (e : ApiErr)
  | failure
deriving DecidableEq, Repr

/-- The three upstream calls the route makes, as an environment: the
transcription text, the chat completion content (`choices[0]?.message?.content`,
absent modelled as `none`), and the TTS reply bytes. -/
structure RouteEnv where
  transcription : CallResult String
  chat : CallResult (Option String)
  tts : CallResult (List Nat)

/-- A JSON response body of the route: either `{ error }` or the success
payload `{ audio, audioFormat, transcript, response }`. -/
inductive RespBody where
  | errBody (error : String)
  | okBody (audio : String) (audioFormat : String) (transcript : String)
      (response : String)
deriving DecidableEq, Repr

/-- An HTTP response: status code and JSON body. -/
structure HttpResp where
  status : Nat
  body : RespBody
deriving DecidableEq, Repr

/-- The base64 alphabet. -/
def base64Chars : List Char :=
  "ABCDEFGHIJKLMNOPQRSTUVWXYZabcdefghijklmnopqrstuvwxyz0123456789+/".data

/-- The base64 digit for a 6-bit value. -/
def b64c (n : Nat) : Char :=
  base64Chars.getD (n % 64) 'A'

/-- Standard base64 of a byte sequence (`Buffer.prototype.toString("base64")`). -/
def base64Encode : List Nat → String
  | [] => ""
  | [b0] =>
      String.mk [b64c (b0 / 4), b64c (b0 % 4 * 16), '=', '=']
  | [b0, b1] =>
      String.mk [b64c (b0 / 4), b64c (b0 % 4 * 16 + b1 / 16),
        b64c (b1 % 16 * 4), '=']
  | b0 :: b1 :: b2 :: rest =>
      String.mk [b64c (b0 / 4), b64c (b0 % 4 * 16 + b1 / 16),
        b64c (b1 % 16 * 4 + b2 / 64), b64c (b2 % 64)] ++ base64Encode rest

/-- JavaScript whitespace for `String.prototype.trim`. -/
def isJsSpace (c : Char) : Bool :=
  c = ' ' || c = '\t' || c = '\n' || c = '\r' || c = '\x0b' || c = '\x0c'
    || c = '\xa0'

/-- `!transcription.text || transcription.text.trim() === ""`: true iff every
character is whitespace (vacuously for the empty string). -/
def transcriptionEmpty (t : String) : Bool :=
  t.data.all isJsSpace

/-- JavaScript `o || d` for an optional number: missing or `0` (falsy)
yields the default. -/
def jsOrNat (o : Option Nat) (d : Nat) : Nat :=
  match o with
  | some n => if n = 0 then d else n
  | none => d

/-- The catch branch for an `OpenAI.APIError`:
`{ error: error.message }` with status `error.status || 500`. -/
def apiErrResp (e : ApiErr) : HttpResp :=
  ⟨jsOrNat e.status 500, RespBody.errBody e.message⟩

/-- The catch branch for any other thrown value. -/
def genericErrResp : HttpResp :=
  ⟨500, RespBody.errBody "Failed to process voice request"⟩

/-- `POST /api/voice` over a parsed body (`audio` absent or present, empty
string being falsy like absent) and the upstream environment.  The `format`
field only selects the file extension and mime type handed to the
transcription call, which the environment abstracts. -/
def post (audio : Option String) (env : RouteEnv) : HttpResp :=
  match audio with
  | none => ⟨400, RespBody.errBody "No audio provided"⟩
  | some a =>
    if a = "" then ⟨400, RespBody.errBody "No audio provided"⟩
    else
      match env.transcription with
      | CallResult.api e => apiErrResp e
      | CallResult.failure => genericErrResp
      | CallResult.ok text =>
        if transcriptionEmpty text then
          ⟨400, RespBody.errBody "Could not understand audio. Please try again."⟩
        else
          match env.chat with
          | CallResult.api e => apiErrResp e
          | CallResult.failure => genericErrResp
          | CallResult.ok rt =>
            let responseText := rt.getD ""
            if responseText = "" then
              ⟨500, RespBody.errBody "No response generated"⟩
            else
              match env.tts with
              | CallResult.api e => apiErrResp e
              | CallResult.failure => genericErrResp
              | CallResult.ok bytes =>
                ⟨200, RespBody.okBody (base64Encode bytes) "mp3" text
                  responseText⟩

end VoiceRoute

namespace VoiceButton

/-- A platform support predicate reporting every encoding as supported. -/
def supAll : String → Bool := fun _ => true

/-- State after pointer 1 presses the enabled button. -/
def pressed1 : VBState := (handlePointerDown false 1 initVB).1

/-- Active session: stream 10 granted at time 1000 while still pressed. -/
def active1 : VBState := (onGrant supAll 10 1000 pressed1).1

/-- Active session with one 3-byte chunk buffered. -/
def active1c : VBState := onDataAvailable [7, 7, 7] active1

/-- State after a second pointer (token 2) presses while session 1 records. -/
def pressed2 : VBState := (handlePointerDown false 2 active1c).1

/-- State after the second `getUserMedia` resolves with stream 20. -/
def active2 : VBState := (onGrant supAll 20 1500 pressed2).1

end VoiceButton

open VoiceButton in
/-- C1: a pointer-down arriving while a session is already Active triggers
`startRecording` again — `handlePointerDown` checks only `isDisabled`, and
`isDisabled` is false while recording.  The second start is not a no-op: it
issues a fresh `getUserMedia`, and on grant the chunk buffer is cleared, the
stream ref is overwritten (stream 10 is no longer tracked) and the recorder
ref is replaced, contrary to the claim that the existing session's stream,
recorder and buffered chunks are left unchanged. -/
theorem second_press_restarts_session :
    active1c.isRecording = true ∧
    (handlePointerDown false 2 active1c).2 = true ∧
    active1c.chunks = [[7, 7, 7]] ∧ active2.chunks = [] ∧
    active1c.stream = some 10 ∧ active2.stream = some 20 ∧
    active1c.recorder
      = some ⟨RecState.recording, "audio/webm;codecs=opus", 10⟩ ∧
    active2.recorder
      = some ⟨RecState.recording, "audio/webm;codecs=opus", 20⟩ := by
  decide

open VoiceButton in
/-- C2: if the press was released while `startRecording` was suspended on
`getUserMedia`, the resumption stops every track of the just-granted stream
and returns with the component state untouched — no recorder is created, no
timer starts, the stream is not stored, and no artifact is emitted. -/
theorem release_during_grant_releases_stream (sup : String → Bool)
    (sid now : Nat) (st : VBState) (h : st.isPressed = false) :
    onGrant sup sid now st = (st, [Eff.trackStopped sid]) := by
  simp [onGrant, h]

open VoiceButton in
/-- Witness for C2 at the initial (released) state and stream 5. -/
theorem release_during_grant_releases_stream_witness :
    initVB.isPressed = false ∧
    onGrant supAll 5 0 initVB = (initVB, [Eff.trackStopped 5]) :=
  ⟨rfl, release_during_grant_releases_stream supAll 5 0 initVB rfl⟩

open VoiceButton in
/-- C3 counterexample: with session 1 actively recording under pointer 1, a
window blur leaves the recorder in state `"recording"`, `isRecording` true
and the interval timer running — the blur handler resets only the press
refs, so the active recording is not stopped through any stop path. -/
theorem blur_leaves_recording_running :
    active1.isRecording = true ∧
    (onBlur active1).isPressed = false ∧
    (onBlur active1).pointerId = none ∧
    (onBlur active1).isRecording = true ∧
    (onBlur active1).recorder
      = some ⟨RecState.recording, "audio/webm;codecs=opus", 10⟩ ∧
    (onBlur active1).timerOn = true := by
  decide

open VoiceButton in
/-- C3 amended: a window blur unconditionally disarms the gesture regardless
of the armed token, leaving recorder, recording status and timer untouched;
consequently a stream granted after the blur is immediately released by the
pressed-state re-check. -/
theorem blur_disarms_gesture (st : VBState) (sup : String → Bool)
    (sid now : Nat) :
    (onBlur st).isPressed = false ∧ (onBlur st).pointerId = none ∧
    (onBlur st).recorder = st.recorder ∧
    (onBlur st).isRecording = st.isRecording ∧
    (onBlur st).timerOn = st.timerOn ∧
    onGrant sup sid now (onBlur st) = (onBlur st, [Eff.trackStopped sid]) := by
  refine ⟨rfl, rfl, rfl, rfl, rfl, ?_⟩
  simp [onBlur, onGrant]

open VoiceButton in
/-- C4 counterexample: a `touchend` carries no pointer token, yet while a
press is armed it is not a no-op — it ends the press and stops the active
recording. -/
theorem touchend_without_token_stops :
    active1.isPressed = true ∧ active1.isRecording = true ∧
    (onTouchEnd active1).isPressed = false ∧
    (onTouchEnd active1).isRecording = false ∧
    (onTouchEnd active1).recorder
      = some ⟨RecState.inactive, "audio/webm;codecs=opus", 10⟩ := by
  decide

open VoiceButton in
/-- C4 amended: a pointer release whose token does not match the armed token
— including any pointer release while no token is armed at all — is a
complete no-op: press state, recorder state and recording status are all
unchanged.  A token-less `touchend` is likewise a no-op while unarmed; while
a press is armed it deliberately ends the press through `handlePressEnd`
(the fallback for suppressed `pointerup` events). -/
theorem release_token_gating (st : VBState) (pid : Nat) :
    (st.pointerId ≠ some pid → onPointerUp pid st = st) ∧
    (st.isPressed = false → onTouchEnd st = st) ∧
    (st.isPressed = true → onTouchEnd st = handlePressEnd st) := by
  refine ⟨?_, ?_, ?_⟩
  · intro hp
    unfold onPointerUp
    cases hq : st.pointerId with
    | none => rfl
    | some q =>
        have hne : pid ≠ q := by
          intro he
          exact hp (by rw [hq, he])
        simp [hne]
  · intro hP
    simp [onTouchEnd, hP]
  · intro hP
    simp [onTouchEnd, hP]

open VoiceButton in
/-- Witness for C4's amended theorem: pointer 2 releasing while pointer 1
owns the active press changes nothing; a pointer release and a token-less
touch-end in the unarmed initial state change nothing; a token-less
touch-end on the armed active session takes the `handlePressEnd` path. -/
theorem release_token_gating_witness :
    onPointerUp 2 active1 = active1 ∧
    onPointerUp 2 initVB = initVB ∧
    onTouchEnd initVB = initVB ∧
    onTouchEnd active1 = handlePressEnd active1 :=
  ⟨(release_token_gating active1 2).1 (by decide),
    (release_token_gating initVB 2).1 (by decide),
    (release_token_gating initVB 2).2.1 rfl,
    (release_token_gating active1 2).2.2 rfl⟩

open VoiceButton in
/-- C6: the `onstop` handler hands a finalized blob to `onRecordingComplete`
if and only if its byte length is non-zero, and any blob it emits is exactly
the in-order concatenation of the buffered chunks tagged with the captured
mime type — a zero-byte result is silently dropped. -/
theorem artifact_emitted_iff_nonempty (mime : String) (st : VBState) :
    ((∃ b, Eff.artifactEmitted b ∈ (fireOnstop mime st).2) ↔
      0 < st.chunks.flatten.length) ∧
    ∀ b, Eff.artifactEmitted b ∈ (fireOnstop mime st).2 →
      b = ⟨st.chunks.flatten, mime⟩ := by
  unfold fireOnstop
  cases h : st.stream <;>
    by_cases hl : 0 < (List.map List.length st.chunks).sum <;>
      simp [h, hl]

namespace VoiceButton

/-- Stopping never leaves the interval timer set. -/
theorem stopRecording_timerOn (st : VBState) :
    (stopRecording st).timerOn = false := by
  obtain ⟨a, d, p, r, c, s, tm, t0, ip, pid⟩ := st
  cases r with
  | none => cases tm <;> rfl
  | some r0 =>
      obtain ⟨rs, mt, sid⟩ := r0
      cases rs <;> cases tm <;> rfl

/-- A cleared interval timer never fires. -/
theorem tick_of_timerOff (md t : Nat) (st : VBState)
    (h : st.timerOn = false) : tick md t st = st := by
  simp [tick, h]

/-- Every tick strictly before the deadline only updates the duration
display. -/
theorem runTicks_pre (md t0 : Nat) (st : VBState)
    (hT : st.timerOn = true) (hS : st.startTime = t0)
    (hD : st.durationMs = 0) :
    ∀ k, 100 * k < 1000 * md →
      runTicks md t0 st k = { st with durationMs := 100 * k } := by
  intro k
  induction k with
  | zero =>
      intro _
      show st = { st with durationMs := 100 * 0 }
      rw [Nat.mul_zero, ← hD]
  | succ n ih =>
      intro hk
      have hn : 100 * n < 1000 * md := by omega
      have hcond : ¬ (1000 * md ≤ 100 * (n + 1)) := by omega
      show tick md (t0 + 100 * (n + 1)) (runTicks md t0 st n)
          = { st with durationMs := 100 * (n + 1) }
      rw [ih hn]
      simp [tick, hT, hS, hcond]

/-- Active session reached by pressing the enabled button with pointer `pid`
and being granted stream `sid` at time `t0`. -/
def activeAfterPress (sup : String → Bool) (pid sid t0 : Nat) : VBState :=
  (onGrant sup sid t0 (handlePointerDown false pid initVB).1).1

/-- Duration-guard contract for a press whose token never receives a
matching release: every tick strictly before the deadline leaves the session
recording; the tick at elapsed `1000·md` milliseconds (i.e. at the
configured maximum, within one 100ms tick) stops it through `stopRecording`
— the same stop path a user release takes — after which the recorder is
inactive, the recording status is off, the interval timer is cancelled, and
any further tick is a no-op. -/
def durationGuardSpec (sup : String → Bool) (pid sid t0 md : Nat) : Prop :=
  (∀ k, 100 * k < 1000 * md →
      (runTicks md t0 (activeAfterPress sup pid sid t0) k).isRecording
          = true ∧
      (runTicks md t0 (activeAfterPress sup pid sid t0) k).recorder
          = some ⟨RecState.recording, getMimeType sup, sid⟩ ∧
      (runTicks md t0 (activeAfterPress sup pid sid t0) k).timerOn = true) ∧
  runTicks md t0 (activeAfterPress sup pid sid t0) (10 * md)
    = stopRecording
        { runTicks md t0 (activeAfterPress sup pid sid t0) (10 * md - 1) with
            durationMs := 1000 * md } ∧
  (runTicks md t0 (activeAfterPress sup pid sid t0) (10 * md)).isRecording
      = false ∧
  (runTicks md t0 (activeAfterPress sup pid sid t0) (10 * md)).recorder
      = some ⟨RecState.inactive, getMimeType sup, sid⟩ ∧
  (runTicks md t0 (activeAfterPress sup pid sid t0) (10 * md)).timerOn
      = false ∧
  ∀ t, tick md t (runTicks md t0 (activeAfterPress sup pid sid t0) (10 * md))
        = runTicks md t0 (activeAfterPress sup pid sid t0) (10 * md)

end VoiceButton

open VoiceButton in
/-- C5: for every press never released, the duration guard force-stops the
recording at the configured maximum duration within one 100ms tick, through
`stopRecording` (the same stop path as a user release), and that stop
cancels the periodic timer so it never fires again. -/
theorem duration_guard_forces_stop (sup : String → Bool) (pid sid t0 md : Nat)
    (hmd : 1 ≤ md) : durationGuardSpec sup pid sid t0 md := by
  have hact : activeAfterPress sup pid sid t0 =
      { isRecording := true, durationMs := 0, permissionDenied := false
        recorder := some ⟨RecState.recording, getMimeType sup, sid⟩
        chunks := [], stream := some sid, timerOn := true, startTime := t0
        isPressed := true, pointerId := some pid } := rfl
  obtain ⟨k, hk⟩ : ∃ k, 10 * md = k + 1 := ⟨10 * md - 1, by omega⟩
  have hk' : 100 * k < 1000 * md := by omega
  have he : 100 * (k + 1) = 1000 * md := by omega
  have hpre := runTicks_pre md t0 (activeAfterPress sup pid sid t0) rfl rfl rfl
  have hfire : runTicks md t0 (activeAfterPress sup pid sid t0) (10 * md)
      = stopRecording
          { activeAfterPress sup pid sid t0 with durationMs := 1000 * md } := by
    rw [hk]
    show tick md (t0 + 100 * (k + 1))
        (runTicks md t0 (activeAfterPress sup pid sid t0) k) = _
    rw [hpre k hk', hact]
    simp [tick, he]
  have hstop : stopRecording
        { activeAfterPress sup pid sid t0 with durationMs := 1000 * md }
      = { isRecording := false, durationMs := 0, permissionDenied := false
          recorder := some ⟨RecState.inactive, getMimeType sup, sid⟩
          chunks := [], stream := some sid, timerOn := false, startTime := t0
          isPressed := true, pointerId := some pid } := by
    rw [hact]
    rfl
  refine ⟨?_, ?_, ?_, ?_, ?_, ?_⟩
  · intro j hj
    rw [hpre j hj, hact]
    exact ⟨rfl, rfl, rfl⟩
  · have h1 : 10 * md - 1 = k := by omega
    rw [hfire, h1, hpre k hk', hact]
  · rw [hfire, hstop]
  · rw [hfire, hstop]
  · rw [hfire, hstop]
  · intro t
    rw [hfire, hstop]
    exact tick_of_timerOff md t _ rfl

open VoiceButton in
/-- Witness for C5 at the default 20-second maximum: pointer 1, stream 10,
timer started at time 1000. -/
theorem duration_guard_forces_stop_witness :
    1 ≤ 20 ∧ durationGuardSpec supAll 1 10 1000 20 :=
  ⟨by decide, duration_guard_forces_stop supAll 1 10 1000 20 (by decide)⟩

namespace VoiceButton

/-- Characterization of `List.find?`: it returns the first element
satisfying the predicate, or `none` when no element does. -/
theorem find?_characterization (p : String → Bool) :
    ∀ l : List String,
      (∃ l₁ l₂ a, l = l₁ ++ a :: l₂ ∧ l.find? p = some a ∧ p a = true ∧
        ∀ t ∈ l₁, p t = false) ∨
      ((∀ t ∈ l, p t = false) ∧ l.find? p = none)
  | [] => Or.inr ⟨by simp, rfl⟩
  | x :: xs => by
      cases hx : p x with
      | true =>
          exact Or.inl ⟨[], xs, x, rfl, by simp [List.find?, hx], hx, by simp⟩
      | false =>
          rcases find?_characterization p xs with
            ⟨l₁, l₂, a, h1, h2, h3, h4⟩ | ⟨h1, h2⟩
          · refine Or.inl ⟨x :: l₁, l₂, a, by rw [h1]; rfl, ?_, h3, ?_⟩
            · simp [List.find?, hx, h2]
            · intro t ht
              rcases List.mem_cons.mp ht with h | h
              · exact h ▸ hx
              · exact h4 t h
          · refine Or.inr ⟨?_, by simp [List.find?, hx, h2]⟩
            intro t ht
            rcases List.mem_cons.mp ht with h | h
            · exact h ▸ hx
            · exact h1 t h

/-- Spec-side characterization of encoding negotiation: the tag is the first
supported entry of the ordered preference list, or the `audio/webm` fallback
when no entry is supported. -/
def mimeSelectionSpec (sup : String → Bool) (m : String) : Prop :=
  (∃ l₁ l₂, mimeTypes = l₁ ++ m :: l₂ ∧ sup m = true ∧
    ∀ t ∈ l₁, sup t = false) ∨
  ((∀ t ∈ mimeTypes, sup t = false) ∧ m = "audio/webm")

/-- The negotiated encoding satisfies the preference-order characterization. -/
theorem getMimeType_spec (sup : String → Bool) :
    mimeSelectionSpec sup (getMimeType sup) := by
  rcases find?_characterization sup mimeTypes with
    ⟨l₁, l₂, a, h1, h2, h3, h4⟩ | ⟨h1, h2⟩
  · have hm : getMimeType sup = a := by rw [getMimeType, h2]; rfl
    exact Or.inl ⟨l₁, l₂, by rw [hm]; exact h1, by rw [hm]; exact h3, h4⟩
  · have hm : getMimeType sup = "audio/webm" := by rw [getMimeType, h2]; rfl
    exact Or.inr ⟨h1, hm⟩

/-- Whether an effect is an artifact emission. -/
def isEmit : Eff → Bool
  | Eff.artifactEmitted _ => true
  | Eff.trackStopped _ => false

end VoiceButton

open VoiceButton in
/-- C7: finalizing a session whose buffer holds at least one chunk, all
non-empty, emits exactly one artifact whose bytes are the in-order
concatenation of the buffered chunks (hence non-empty), tagged with the
first platform-supported encoding of the ordered preference list, falling
back to `audio/webm` when none is supported. -/
theorem finalize_roundtrip (sup : String → Bool) (st : VBState)
    (h1 : st.chunks ≠ []) (h2 : ∀ c ∈ st.chunks, c ≠ []) :
    (fireOnstop (getMimeType sup) st).2.filter isEmit
        = [Eff.artifactEmitted ⟨st.chunks.flatten, getMimeType sup⟩] ∧
    st.chunks.flatten ≠ [] ∧
    mimeSelectionSpec sup (getMimeType sup) := by
  have hlen : 0 < (List.map List.length st.chunks).sum := by
    cases hc : st.chunks with
    | nil => exact absurd hc h1
    | cons c cs =>
        have hcne : c ≠ [] := h2 c (by rw [hc]; exact List.mem_cons_self c cs)
        have hcl : 0 < c.length := List.length_pos.mpr hcne
        simp only [List.map_cons, List.sum_cons]
        omega
  have hflat : 0 < st.chunks.flatten.length := by simpa using hlen
  refine ⟨?_, List.length_pos.mp hflat, getMimeType_spec sup⟩
  unfold fireOnstop
  cases h : st.stream <;> simp [hlen, isEmit]

open VoiceButton in
/-- A concrete finalizing state for the C7 witness: two buffered chunks on
stream 4. -/
def finalizeWitnessState : VBState :=
  { initVB with chunks := [[1], [2, 3]], stream := some 4 }

open VoiceButton in
/-- Witness for C7: two non-empty chunks finalize into the single artifact
`[1, 2, 3]` tagged `audio/webm;codecs=opus` when every encoding is
supported. -/
theorem finalize_roundtrip_witness :
    finalizeWitnessState.chunks ≠ [] ∧
    (∀ c ∈ finalizeWitnessState.chunks, c ≠ []) ∧
    ((fireOnstop (getMimeType supAll) finalizeWitnessState).2.filter isEmit
        = [Eff.artifactEmitted
            ⟨finalizeWitnessState.chunks.flatten, getMimeType supAll⟩] ∧
      finalizeWitnessState.chunks.flatten ≠ [] ∧
      mimeSelectionSpec supAll (getMimeType supAll)) :=
  ⟨by decide, by decide,
    finalize_roundtrip supAll finalizeWitnessState (by decide) (by decide)⟩

namespace Page

/-- Orchestrator state while the successful reply is playing: the boundary
returned ok JSON with audio `"QUJD"` and format `"mp3"`, and `play()`
resolved. -/
def playingScenario : PageState :=
  handleRecordingComplete
    (FetchOutcome.okJson (some "QUJD") (some "mp3")) PlayOutcome.started
    initPage

/-- Orchestrator state after the playing audio element fires `onerror`. -/
def playbackErrored : PageState := onAudioError playingScenario

/-- Full success scenario: press, release, boundary success with audio and
`audioFormat` `"mp3"`, playback starts and ends naturally. -/
def successScenario : PageState := onEnded playingScenario

end Page

open Page in
/-- C8 counterexample: the Error state entered through a playback failure
(the audio element's `onerror` handler) never returns to Idle — the
3-second auto-reset is scheduled only by the catch block of
`handleRecordingComplete`, and after a playback error no reset is pending,
so the status stays Error with its message in place. -/
theorem playback_error_does_not_autoclear :
    playbackErrored.status = Status.error ∧
    playbackErrored.errorMessage = "Failed to play audio response" ∧
    playbackErrored.pendingReset = false := by
  decide

open Page in
/-- C8 amended: Error states entered through the boundary-call catch block —
network/encode failure, non-ok HTTP response, malformed success payload —
schedule the 3-second reset, and firing that reset returns the status to
Idle with the message cleared; Error states entered through playback failure
(the `onerror` event or a `play()` rejection) carry their own distinct
message but leave no reset pending. -/
theorem error_autoclear_paths (st : PageState) (e m : Option String)
    (p : PlayOutcome) (fmt : String) :
    ((handleRecordingComplete (FetchOutcome.httpErr e) p st).status
        = Status.error ∧
      (handleRecordingComplete (FetchOutcome.httpErr e) p st).pendingReset
        = true ∧
      (fireReset (handleRecordingComplete (FetchOutcome.httpErr e) p st)).status
        = Status.idle ∧
      (fireReset
          (handleRecordingComplete (FetchOutcome.httpErr e) p st)).errorMessage
        = "") ∧
    ((handleRecordingComplete (FetchOutcome.okJson none none) p st).status
        = Status.error ∧
      (handleRecordingComplete (FetchOutcome.okJson none none) p st).pendingReset
        = true ∧
      (fireReset
          (handleRecordingComplete (FetchOutcome.okJson none none) p st)).status
        = Status.idle ∧
      (fireReset
          (handleRecordingComplete
            (FetchOutcome.okJson none none) p st)).errorMessage
        = "") ∧
    ((handleRecordingComplete (FetchOutcome.fetchThrow m) p st).status
        = Status.error ∧
      (handleRecordingComplete (FetchOutcome.fetchThrow m) p st).pendingReset
        = true) ∧
    ((onAudioError st).status = Status.error ∧
      (onAudioError st).errorMessage = "Failed to play audio response" ∧
      (onAudioError st).pendingReset = st.pendingReset) ∧
    ((playAudio fmt PlayOutcome.throwsPlay st).status = Status.error ∧
      (playAudio fmt PlayOutcome.throwsPlay st).errorMessage
        = "Could not play audio. Tap to retry." ∧
      (playAudio fmt PlayOutcome.throwsPlay st).pendingReset
        = st.pendingReset) := by
  refine ⟨⟨rfl, rfl, rfl, rfl⟩, ⟨rfl, rfl, rfl, rfl⟩, ⟨rfl, rfl⟩,
    ⟨rfl, rfl, rfl⟩, ⟨rfl, rfl, rfl⟩⟩

open Page in
/-- C9: in the full success scenario the orchestrator status passes through
exactly Idle, Processing, Playing, Idle — the Recording status is never
entered, because `page.tsx` does not pass the `onPressStart` prop to
`VoiceButton` and no `setStatus("recording")` call exists, contrary to the
claimed Idle → Recording → Processing → Playing → Idle sequence. -/
theorem success_scenario_skips_recording :
    successScenario.log
        = [Status.idle, Status.processing, Status.playing, Status.idle] ∧
    Status.recording ∉ successScenario.log ∧
    homePassesOnPressStart = false := by
  decide

namespace VoiceRoute

/-- Well-formedness of an SDK `APIError` per the OpenAI client contract: it
carries a non-empty human-readable message, and when it carries an HTTP
status that status is the non-2xx status of the failed upstream call. -/
def apiErrOk (e : ApiErr) : Prop :=
  e.message ≠ "" ∧ ∀ s, e.status = some s → ¬(200 ≤ s ∧ s ≤ 299)

/-- Well-formedness of one call result: only the `APIError` case carries an
obligation. -/
def callOk {α : Type} : CallResult α → Prop
  | CallResult.api e => apiErrOk e
  | CallResult.ok _ => True
  | CallResult.failure => True

/-- Well-formedness of the whole upstream environment. -/
def envOk (env : RouteEnv) : Prop :=
  callOk env.transcription ∧ callOk env.chat ∧ callOk env.tts

/-- Responses produced by the catch branches are non-2xx with a non-empty
message when the caught `APIError` is well-formed. -/
theorem apiErrResp_spec (e : ApiErr) (h : apiErrOk e) :
    ¬(200 ≤ (apiErrResp e).status ∧ (apiErrResp e).status ≤ 299) ∧
    (apiErrResp e).body = RespBody.errBody e.message ∧ e.message ≠ "" := by
  refine ⟨?_, rfl, h.1⟩
  unfold apiErrResp jsOrNat
  cases hs : e.status with
  | none => simp
  | some s =>
      by_cases h0 : s = 0
      · simp [h0]
      · simpa [h0] using h.2 s hs

end VoiceRoute

open VoiceRoute in
/-- C10: every response of `POST /api/voice` is either a 2xx JSON success
payload whose audio is the base64 encoding of the TTS reply bytes together
with `audioFormat` exactly `"mp3"`, or a non-2xx JSON body with a non-empty
error message; a request with a missing (or falsy) `audio` field yields 400
`"No audio provided"`, and an empty or whitespace-only transcription yields
400 `"Could not understand audio. Please try again."`.  The hypothesis is
the SDK contract that any thrown `APIError` has a non-empty message and a
non-2xx status. -/
theorem post_response_dichotomy (audio : Option String) (env : RouteEnv)
    (h : envOk env) :
    ((post audio env).status = 200 ∧
      (∃ bytes transcript response,
        env.tts = CallResult.ok bytes ∧
        (post audio env).body
          = RespBody.okBody (base64Encode bytes) "mp3" transcript response) ∨
      (¬(200 ≤ (post audio env).status ∧ (post audio env).status ≤ 299) ∧
        ∃ msg, (post audio env).body = RespBody.errBody msg ∧ msg ≠ "")) ∧
    (audio = none →
      post audio env = ⟨400, RespBody.errBody "No audio provided"⟩) ∧
    (∀ a t, audio = some a → a ≠ "" →
      env.transcription = CallResult.ok t → transcriptionEmpty t = true →
      post audio env
        = ⟨400, RespBody.errBody
            "Could not understand audio. Please try again."⟩) := by
  obtain ⟨ht, hc, htts⟩ := h
  refine ⟨?_, ?_, ?_⟩
  · cases haud : audio with
    | none => exact Or.inr ⟨by simp [post], "No audio provided", rfl, by decide⟩
    | some a =>
      by_cases ha : a = ""
      · exact Or.inr ⟨by simp [post, ha], "No audio provided", by simp [post, ha],
          by decide⟩
      · cases htr : env.transcription with
        | api e =>
            rw [htr] at ht
            have := apiErrResp_spec e ht
            exact Or.inr ⟨by simpa [post, ha, htr] using this.1,
              e.message, by simpa [post, ha, htr] using this.2.1, this.2.2⟩
        | failure =>
            exact Or.inr ⟨by simp [post, ha, htr, genericErrResp],
              "Failed to process voice request",
              by simp [post, ha, htr, genericErrResp], by decide⟩
        | ok text =>
            by_cases hte : transcriptionEmpty text
            · exact Or.inr ⟨by simp [post, ha, htr, hte],
                "Could not understand audio. Please try again.",
                by simp [post, ha, htr, hte], by decide⟩
            · cases hch : env.chat with
              | api e =>
                  rw [hch] at hc
                  have := apiErrResp_spec e hc
                  exact Or.inr ⟨by simpa [post, ha, htr, hte, hch] using this.1,
                    e.message,
                    by simpa [post, ha, htr, hte, hch] using this.2.1,
                    this.2.2⟩
              | failure =>
                  exact Or.inr ⟨by simp [post, ha, htr, hte, hch, genericErrResp],
                    "Failed to process voice request",
                    by simp [post, ha, htr, hte, hch, genericErrResp],
                    by decide⟩
              | ok rt =>
                  by_cases hrt : rt.getD "" = ""
                  · exact Or.inr ⟨by simp [post, ha, htr, hte, hch, hrt],
                      "No response generated",
                      by simp [post, ha, htr, hte, hch, hrt], by decide⟩
                  · cases hts : env.tts with
                    | api e =>
                        rw [hts] at htts
                        have := apiErrResp_spec e htts
                        exact Or.inr
                          ⟨by simpa [post, ha, htr, hte, hch, hrt, hts]
                              using this.1,
                            e.message,
                            by simpa [post, ha, htr, hte, hch, hrt, hts]
                              using this.2.1,
                            this.2.2⟩
                    | failure =>
                        exact Or.inr
                          ⟨by simp [post, ha, htr, hte, hch, hrt, hts,
                              genericErrResp],
                            "Failed to process voice request",
                            by simp [post, ha, htr, hte, hch, hrt, hts,
                              genericErrResp],
                            by decide⟩
                    | ok bytes =>
                        exact Or.inl ⟨by simp [post, ha, htr, hte, hch, hrt, hts],
                          bytes, text, rt.getD "", rfl,
                          by simp [post, ha, htr, hte, hch, hrt, hts]⟩
  · intro haud
    simp [post, haud]
  · intro a t haud ha htr hte
    simp [post, haud, ha, htr, hte]

namespace VoiceRoute

/-- A fully successful upstream environment for the C10 witness. -/
def wEnv : RouteEnv :=
  { transcription := CallResult.ok "tell me a story"
    chat := CallResult.ok (some "Once there was a shark.")
    tts := CallResult.ok [1, 2, 3] }

end VoiceRoute

open VoiceRoute in
/-- Witness for C10 at a concrete request and a fully successful upstream
environment. -/
theorem post_response_dichotomy_witness :
    envOk wEnv ∧
    (((post (some "QUJD") wEnv).status = 200 ∧
        (∃ bytes transcript response,
          wEnv.tts = CallResult.ok bytes ∧
          (post (some "QUJD") wEnv).body
            = RespBody.okBody (base64Encode bytes) "mp3" transcript response) ∨
        (¬(200 ≤ (post (some "QUJD") wEnv).status ∧
            (post (some "QUJD") wEnv).status ≤ 299) ∧
          ∃ msg, (post (some "QUJD") wEnv).body = RespBody.errBody msg ∧
            msg ≠ "")) ∧
      ((some "QUJD" : Option String) = none →
        post (some "QUJD") wEnv
          = ⟨400, RespBody.errBody "No audio provided"⟩) ∧
      (∀ a t, (some "QUJD" : Option String) = some a → a ≠ "" →
        wEnv.transcription = CallResult.ok t → transcriptionEmpty t = true →
        post (some "QUJD") wEnv
          = ⟨400, RespBody.errBody
              "Could not understand audio. Please try again."⟩)) :=
  ⟨⟨trivial, trivial, trivial⟩,
    post_response_dichotomy (some "QUJD") wEnv ⟨trivial, trivial, trivial⟩⟩
